import Mathlib

/-!
Shallow embedding of `lib/charms/ip_router_interface/v0/ip_router_interface.py`
(canonical/ip-router-interface).

Python dict values drawn from JSON are modelled by `Fv` (a field of a network
dict is either absent, present-but-unparseable, or parsed), relation databag
contents by `DB`, and routing tables by association lists in insertion order
(Python dicts preserve insertion order; assignment to an existing key keeps
its position, which `upsert` mirrors).
-/

deriving instance DecidableEq for Except

namespace IpRouter

/-- An IPv4 address as its 32-bit numeric value. -/
abbrev IPv4 := Nat

/-- An `ipaddress.IPv4Network`: numeric base address plus mask length. -/
structure Pfx where
  base : Nat
  plen : Nat
deriving DecidableEq

/-- Number of addresses in the block, `2 ^ (32 - plen)`. -/
def Pfx.size (p : Pfx) : Nat := 2 ^ (32 - p.plen)

/-- Numeric broadcast address of the block. -/
def Pfx.broadcast (p : Pfx) : Nat := p.base + p.size - 1

/-- Python `address in network`: network_address <= address <= broadcast_address. -/
def Pfx.containsAddr (p : Pfx) (a : IPv4) : Bool :=
  decide (p.base ≤ a) && decide (a ≤ p.broadcast)

/-- Python `a.subnet_of(b)` for IPv4Network:
`b.network_address <= a.network_address and a.broadcast_address <= b.broadcast_address`. -/
def subnetOf (a b : Pfx) : Bool :=
  decide (b.base ≤ a.base) && decide (a.broadcast ≤ b.broadcast)

/-- Numeric value of a dotted quad. -/
def ipv4 (a b c d : Nat) : Nat := ((a * 256 + b) * 256 + c) * 256 + d

/-- A JSON field of a network dict: the key may be absent, its value may fail
to parse as an address or network (`IPv4Address` / `IPv4Network` raise
`ValueError`), or it parses. -/
inductive Fv (α : Type) where
  | missing
  | malformed
  | parsed (a : α)
deriving DecidableEq

/-- Whether the field is present and parses. -/
def Fv.isParsed {α : Type} : Fv α → Bool
  | Fv.parsed _ => true
  | _ => false

/-- One element of a network dict's `routes` list: the `destination` value is
only checked for presence, never parsed, by the validator. -/
structure RouteD where
  destination : Fv Pfx
  gateway : Fv IPv4
deriving DecidableEq

/-- A network dict from a databag payload. `routes = none` means the key
`routes` is absent; `extraKeys` records whether the dict carries keys beyond
`gateway` / `network` / `routes` (it only affects Python truthiness). -/
structure NetworkD where
  gateway : Fv IPv4
  network : Fv Pfx
  routes : Option (List RouteD)
  extraKeys : Bool
deriving DecidableEq

/-- Python truthiness of the network dict: an empty dict is falsy. -/
def NetworkD.truthy (n : NetworkD) : Bool :=
  !(decide (n.gateway = Fv.missing) && decide (n.network = Fv.missing)
    && decide (n.routes = none) && !n.extraKeys)

/-- A routing table / peer proposal: names mapped to network dicts, in
insertion order. -/
abbrev RT := List (String × NetworkD)

/-- The errors `_validate_network` raises (each is a Python `KeyError` or
`ValueError`; see `VErr.pyClass`). -/
inductive VErr where
  | missingGateway
  | missingNetwork
  | badGateway
  | badNetwork
  | missingRouteGateway
  | missingRouteDestination
  | badRouteGateway
  | routeUnreachable
  | missingNetworkKeyInTable
  | badNetworkInTable
  | networkConflict
deriving DecidableEq

/-- The Python exception class of a validation error. -/
inductive PyExc where
  | keyError
  | valueError
deriving DecidableEq

/-- Which Python exception class each validation error is raised as. -/
def VErr.pyClass : VErr → PyExc
  | VErr.missingGateway => PyExc.keyError
  | VErr.missingNetwork => PyExc.keyError
  | VErr.missingRouteGateway => PyExc.keyError
  | VErr.missingRouteDestination => PyExc.keyError
  | VErr.missingNetworkKeyInTable => PyExc.keyError
  | _ => PyExc.valueError

/-- The body of the `for route in network_request.get("routes", [])` loop:
check `gateway` key, check `destination` key, parse the route gateway, require
it to lie inside the candidate's network. -/
def validateRoute (net : Pfx) (r : RouteD) : Except VErr Unit :=
  match r.gateway with
  | Fv.missing => Except.error VErr.missingRouteGateway
  | Fv.malformed =>
    if r.destination = Fv.missing then Except.error VErr.missingRouteDestination
    else Except.error VErr.badRouteGateway
  | Fv.parsed rg =>
    if r.destination = Fv.missing then Except.error VErr.missingRouteDestination
    else if net.containsAddr rg then Except.ok ()
    else Except.error VErr.routeUnreachable

/-- The route loop of `_validate_network`, first failure wins. -/
def validateRoutes (net : Pfx) : List RouteD → Except VErr Unit
  | [] => Except.ok ()
  | r :: rs =>
    match validateRoute net r with
    | Except.ok _ => validateRoutes net rs
    | Except.error e => Except.error e

/-- The final loop of `_validate_network`: for every entry already in the
table, parse its `network` value and fail when it is a (non-strict) subnet or
supernet of the candidate's network. -/
def checkExclusivity (newPfx : Pfx) : RT → Except VErr Unit
  | [] => Except.ok ()
  | (_, en) :: rest =>
    match en.network with
    | Fv.missing => Except.error VErr.missingNetworkKeyInTable
    | Fv.malformed => Except.error VErr.badNetworkInTable
    | Fv.parsed old =>
      if subnetOf old newPfx || subnetOf newPfx old then
        Except.error VErr.networkConflict
      else checkExclusivity newPfx rest

/-- `_validate_network(network_request, existing_routing_table)`.

Mirrors the source order: `gateway` key check, `network` key check, parse
gateway, parse network, route loop, exclusivity loop.  The source's
gateway-containment test (`if gateway not in network:`) constructs
`ValueError("Chosen gateway not within given network.")` without raising it,
so validation proceeds regardless of that test's outcome; the embedding
therefore has no corresponding check. -/
def validateNetwork (req : NetworkD) (existing : RT) : Except VErr Unit :=
  match req.gateway with
  | Fv.missing => Except.error VErr.missingGateway
  | Fv.malformed =>
    if req.network = Fv.missing then Except.error VErr.missingNetwork
    else Except.error VErr.badGateway
  | Fv.parsed _ =>
    match req.network with
    | Fv.missing => Except.error VErr.missingNetwork
    | Fv.malformed => Except.error VErr.badNetwork
    | Fv.parsed net =>
      match validateRoutes net (req.routes.getD []) with
      | Except.error e => Except.error e
      | Except.ok _ => checkExclusivity net existing

/-- The value found at key `networks` of a relation databag:
absent (`.get` returns `None`), the empty string, undecodable JSON, or a
decoded object payload. -/
inductive DB where
  | absent
  | emptyStr
  | badJson
  | payload (t : RT)
deriving DecidableEq

/-- A provider-side relation: remote application name and the remote app
databag's `networks` value. -/
structure RelationState where
  appName : String
  networks : DB
deriving DecidableEq

/-- The `RuntimeError`s `RouterProvides.get_routing_table` raises: a network
name already present in the accumulator, or a validation failure. -/
inductive ProvErr where
  | duplicateName (name : String)
  | validationError (e : VErr)
deriving DecidableEq

/-- Names bound in a table. -/
def keysOf (t : RT) : List String := t.map Prod.fst

/-- One iteration of the provider's entry loop: falsy names or falsy network
dicts are skipped, a duplicate name raises, a validation failure raises,
otherwise the entry is appended. -/
def provEntry (acc : RT) (e : String × NetworkD) : Except ProvErr RT :=
  if e.1 = "" || !e.2.truthy then Except.ok acc
  else if e.1 ∈ keysOf acc then Except.error (ProvErr.duplicateName e.1)
  else
    match validateNetwork e.2 acc with
    | Except.error err => Except.error (ProvErr.validationError err)
    | Except.ok _ => Except.ok (acc ++ [e])

/-- The provider's loop over one payload's entries. -/
def provEntries (acc : RT) : List (String × NetworkD) → Except ProvErr RT
  | [] => Except.ok acc
  | e :: es =>
    match provEntry acc e with
    | Except.ok acc2 => provEntries acc2 es
    | Except.error err => Except.error err

/-- The provider's treatment of one relation: `json.loads(None)` raises
`TypeError` (caught, relation skipped), empty or undecodable strings raise
`JSONDecodeError` (caught, relation skipped), a decoded payload is folded
entry by entry. -/
def provRel (acc : RT) (r : RelationState) : Except ProvErr RT :=
  match r.networks with
  | DB.absent => Except.ok acc
  | DB.emptyStr => Except.ok acc
  | DB.badJson => Except.ok acc
  | DB.payload entries => provEntries acc entries

/-- The provider's loop over all relations. -/
def provRels (acc : RT) : List RelationState → Except ProvErr RT
  | [] => Except.ok acc
  | r :: rs =>
    match provRel acc r with
    | Except.ok acc2 => provRels acc2 rs
    | Except.error err => Except.error err

/-- `RouterProvides.get_routing_table()`. -/
def getRoutingTableProvides (rels : List RelationState) : Except ProvErr RT :=
  provRels [] rels

/-- A requirer-side relation: the provider app's databag `networks` value
(read path) and this charm's own app databag `networks` value (write path),
kept as its decoded table. -/
structure ReqRelation where
  appName : String
  remote : DB
  localNetworks : Option RT
deriving DecidableEq

/-- Python dict assignment `t[k] = v`: replace in place when the key exists,
append otherwise. -/
def upsert (t : RT) (k : String) (v : NetworkD) : RT :=
  match t with
  | [] => [(k, v)]
  | (k0, v0) :: rest => if k0 = k then (k0, v) :: rest else (k0, v0) :: upsert rest k v

/-- The requirer read path's entry loop: a validation failure is logged and
the entry skipped; success stores the entry under its name. -/
def reqEntries (acc : RT) : List (String × NetworkD) → RT
  | [] => acc
  | (name, net) :: es =>
    match validateNetwork net acc with
    | Except.error _ => reqEntries acc es
    | Except.ok _ => reqEntries (upsert acc name net) es

/-- The requirer read path's relation loop: a falsy databag value (absent or
empty string) skips the relation, undecodable JSON makes the whole call
`return {}`, a payload is folded entry by entry. -/
def reqRels (acc : RT) : List ReqRelation → RT
  | [] => acc
  | r :: rs =>
    match r.remote with
    | DB.absent => reqRels acc rs
    | DB.emptyStr => reqRels acc rs
    | DB.badJson => []
    | DB.payload entries => reqRels (reqEntries acc entries) rs

/-- `RouterRequires.get_routing_table()`: a bare `return` (i.e. `None`) on
non-leader units, the validated fold otherwise. -/
def getRoutingTableRequires (isLeader : Bool) (rels : List ReqRelation) : Option RT :=
  if isLeader then some (reqRels [] rels) else none

/-- How `RouterRequires.get_network` can fail: subscripting the `None`
returned on non-leaders raises `TypeError`; a missing name in the returned
dict raises `KeyError`. -/
inductive LookupErr where
  | typeErrorNone
  | keyErrorNotFound
deriving DecidableEq

/-- `RouterRequires.get_network(network_name)`:
`self.get_routing_table()[network_name]`. -/
def getNetwork (isLeader : Bool) (rels : List ReqRelation) (name : String) :
    Except LookupErr NetworkD :=
  match getRoutingTableRequires isLeader rels with
  | none => Except.error LookupErr.typeErrorNone
  | some t =>
    match t.lookup name with
    | none => Except.error LookupErr.keyErrorNotFound
    | some n => Except.ok n

/-- The list comprehension `[existing.pop(key, None) for key in
requested_networks.keys()]`: drop every entry whose name occurs among the
requested names. -/
def popKeys (t : RT) (ks : List String) : RT :=
  t.filter (fun e => decide (e.1 ∉ ks))

/-- The validation loop of `request_network`: each candidate is validated
against the evolving table; the first failure is re-raised, successes are
stored under their name. -/
def validateBatch (acc : RT) : List (String × NetworkD) → Except VErr RT
  | [] => Except.ok acc
  | (name, net) :: es =>
    match validateNetwork net acc with
    | Except.error e => Except.error e
    | Except.ok _ => validateBatch (upsert acc name net) es

/-- The publish loop of `request_network`: every relation's own app databag
gets `networks := json.dumps(requested_networks)`. -/
def publish (rels : List ReqRelation) (requested : RT) : List ReqRelation :=
  rels.map (fun r => { r with localNetworks := some requested })

/-- `RouterRequires.request_network(requested_networks)`, returning the call's
outcome together with the relation states after the call (databags are only
written by the final publish loop, after all validation). -/
def requestNetwork (isLeader : Bool) (rels : List ReqRelation) (requested : RT) :
    Except VErr Unit × List ReqRelation :=
  if !isLeader then (Except.ok (), rels)
  else if rels.isEmpty then (Except.ok (), rels)
  else
    let existing := reqRels [] rels
    let popped := popKeys existing (keysOf requested)
    match validateBatch popped requested with
    | Except.error e => (Except.error e, rels)
    | Except.ok _ => (Except.ok (), publish rels requested)

/-- `net-a` of the spec's scenarios: 192.168.250.0/24, gateway 192.168.250.1. -/
def netA : NetworkD :=
  { gateway := Fv.parsed (ipv4 192 168 250 1)
    network := Fv.parsed ⟨ipv4 192 168 250 0, 24⟩
    routes := none
    extraKeys := false }

/-- A second, non-overlapping network: 192.168.251.0/24, gateway 192.168.251.1. -/
def netC : NetworkD :=
  { gateway := Fv.parsed (ipv4 192 168 251 1)
    network := Fv.parsed ⟨ipv4 192 168 251 0, 24⟩
    routes := none
    extraKeys := false }

/-- `net-b` of scenario 4: 192.168.240.0/20, a supernet of `netA`'s block. -/
def netB20 : NetworkD :=
  { gateway := Fv.parsed (ipv4 192 168 250 1)
    network := Fv.parsed ⟨ipv4 192 168 240 0, 20⟩
    routes := none
    extraKeys := false }

/-- A candidate whose gateway 10.0.0.1 lies outside its block 192.168.250.0/24. -/
def gwOutside : NetworkD :=
  { gateway := Fv.parsed (ipv4 10 0 0 1)
    network := Fv.parsed ⟨ipv4 192 168 250 0, 24⟩
    routes := none
    extraKeys := false }

/-- A truthy network dict whose `gateway` key is absent. -/
def noGw : NetworkD :=
  { gateway := Fv.missing
    network := Fv.parsed ⟨ipv4 192 168 252 0, 24⟩
    routes := none
    extraKeys := false }

/-- The requirer relation of scenario 4: the provider has published a table
holding only `net-a`. -/
def scenario4Rels : List ReqRelation :=
  [⟨"router", DB.payload [("net-a", netA)], none⟩]

/-- A requirer relation whose provider databag holds the peer's own prior
contribution `net-a`, also recorded in the peer's local databag. -/
def rels6 : List ReqRelation :=
  [⟨"router", DB.payload [("net-a", netA)], some [("net-a", netA)]⟩]

/-- Two requirer relations: the first provider publishes a valid table, the
second an undecodable payload. -/
def rels7 : List ReqRelation :=
  [⟨"router-a", DB.payload [("net-a", netA)], none⟩, ⟨"router-b", DB.badJson, none⟩]

/-- Two network dicts whose parsed prefixes never relate by equality, subnet
or supernet. -/
def noOverlapD (m n : NetworkD) : Prop :=
  ∀ p q, m.network = Fv.parsed p → n.network = Fv.parsed q →
    ¬(p = q ∨ subnetOf p q = true ∨ subnetOf q p = true)

theorem subnetOf_refl (p : Pfx) : subnetOf p p = true := by
  simp [subnetOf]

theorem provRels_append (xs ys : List RelationState) (acc : RT) :
    provRels acc (xs ++ ys) =
      match provRels acc xs with
      | Except.ok a => provRels a ys
      | Except.error e => Except.error e := by
  induction xs generalizing acc with
  | nil => simp [provRels]
  | cons r rs ih =>
    simp only [List.cons_append, provRels]
    cases provRel acc r with
    | ok a => exact ih a
    | error e => rfl

theorem provEntries_append (xs ys : List (String × NetworkD)) (acc : RT) :
    provEntries acc (xs ++ ys) =
      match provEntries acc xs with
      | Except.ok a => provEntries a ys
      | Except.error e => Except.error e := by
  induction xs generalizing acc with
  | nil => simp [provEntries]
  | cons e es ih =>
    simp only [List.cons_append, provEntries]
    cases provEntry acc e with
    | ok a => exact ih a
    | error err => rfl

theorem checkExclusivity_ok {p : Pfx} {t : RT}
    (h : checkExclusivity p t = Except.ok ()) :
    ∀ e ∈ t, ∃ q, (e.2).network = Fv.parsed q ∧
      subnetOf q p = false ∧ subnetOf p q = false := by
  induction t with
  | nil => intro e he; cases he
  | cons hd rest ih =>
    intro e he
    rcases hd with ⟨nm, en⟩
    cases hen : en.network with
    | missing => simp [checkExclusivity, hen] at h
    | malformed => simp [checkExclusivity, hen] at h
    | parsed old =>
      simp only [checkExclusivity, hen] at h
      by_cases hc : (subnetOf old p || subnetOf p old) = true
      · rw [if_pos hc] at h; cases h
      · rw [if_neg hc] at h
        have hcf : (subnetOf old p || subnetOf p old) = false := by
          simpa using hc
        rcases Bool.or_eq_false_iff.mp hcf with ⟨h1, h2⟩
        rcases List.mem_cons.mp he with he1 | he2
        · subst he1
          exact ⟨old, hen, h1, h2⟩
        · exact ih h e he2

theorem checkExclusivity_conflict {p : Pfx} {t : RT}
    (hall : ∀ e ∈ t, (e.2).network.isParsed = true)
    (hconf : ∃ e ∈ t, ∃ q, (e.2).network = Fv.parsed q ∧
      (p = q ∨ subnetOf p q = true ∨ subnetOf q p = true)) :
    checkExclusivity p t = Except.error VErr.networkConflict := by
  induction t with
  | nil => rcases hconf with ⟨e, he, _⟩; cases he
  | cons hd rest ih =>
    rcases hd with ⟨nm, en⟩
    have hhd := hall (nm, en) (List.mem_cons_self _ _)
    cases hen : en.network with
    | missing => simp [Fv.isParsed, hen] at hhd
    | malformed => simp [Fv.isParsed, hen] at hhd
    | parsed old =>
      simp only [checkExclusivity, hen]
      by_cases hc : (subnetOf old p || subnetOf p old) = true
      · rw [if_pos hc]
      · rw [if_neg hc]
        apply ih
        · intro e he; exact hall e (List.mem_cons_of_mem _ he)
        · rcases hconf with ⟨e, he, q, hq, hrel⟩
          rcases List.mem_cons.mp he with he1 | he2
          · subst he1
            rw [hen] at hq
            cases hq
            exfalso
            apply hc
            rcases hrel with hrel | hrel | hrel
            · subst hrel; simp [subnetOf_refl]
            · simp [hrel]
            · simp [hrel]
          · exact ⟨e, he2, q, hq, hrel⟩

theorem validateNetwork_ok {net : NetworkD} {acc : RT}
    (h : validateNetwork net acc = Except.ok ()) :
    ∃ p, net.network = Fv.parsed p ∧ checkExclusivity p acc = Except.ok () := by
  cases hg : net.gateway with
  | missing => simp [validateNetwork, hg] at h
  | malformed =>
    simp only [validateNetwork, hg] at h
    by_cases hn : net.network = Fv.missing
    · rw [if_pos hn] at h; cases h
    · rw [if_neg hn] at h; cases h
  | parsed g =>
    cases hn : net.network with
    | missing => simp [validateNetwork, hg, hn] at h
    | malformed => simp [validateNetwork, hg, hn] at h
    | parsed p =>
      simp only [validateNetwork, hg, hn] at h
      cases hv : validateRoutes p (net.routes.getD []) with
      | error e => rw [hv] at h; cases h
      | ok u => rw [hv] at h; exact ⟨p, by simp [hn], h⟩

theorem popKeys_eq_nil {t : RT} {ks : List String}
    (h : ∀ e ∈ t, e.1 ∈ ks) : popKeys t ks = [] := by
  rw [popKeys, List.filter_eq_nil_iff]
  intro e he
  simp [h e he]

theorem reqRels_badJson {rels : List ReqRelation}
    (h : ∃ r ∈ rels, r.remote = DB.badJson) :
    ∀ acc, reqRels acc rels = [] := by
  induction rels with
  | nil => rcases h with ⟨r, hr, _⟩; cases hr
  | cons r rs ih =>
    intro acc
    rcases h with ⟨w, hw, hwbad⟩
    rw [reqRels]
    cases hr : r.remote with
    | badJson => rfl
    | absent =>
      rcases List.mem_cons.mp hw with h1 | h2
      · subst h1; rw [hr] at hwbad; cases hwbad
      · exact ih ⟨w, h2, hwbad⟩ acc
    | emptyStr =>
      rcases List.mem_cons.mp hw with h1 | h2
      · subst h1; rw [hr] at hwbad; cases hwbad
      · exact ih ⟨w, h2, hwbad⟩ acc
    | payload entries =>
      rcases List.mem_cons.mp hw with h1 | h2
      · subst h1; rw [hr] at hwbad; cases hwbad
      · exact ih ⟨w, h2, hwbad⟩ _

theorem provRels_networks_eq (r1 r2 : List RelationState) (acc : RT)
    (h : r1.map RelationState.networks = r2.map RelationState.networks) :
    provRels acc r1 = provRels acc r2 := by
  induction r1 generalizing r2 acc with
  | nil =>
    have : r2 = [] := by
      cases r2 with
      | nil => rfl
      | cons b bs => simp at h
    subst this; rfl
  | cons a as ih =>
    cases r2 with
    | nil => simp at h
    | cons b bs =>
      simp only [List.map_cons, List.cons.injEq] at h
      rw [provRels, provRels]
      have hab : provRel acc a = provRel acc b := by
        rw [provRel, provRel, h.1]
      rw [hab]
      cases provRel acc b with
      | ok a2 => exact ih bs a2 h.2
      | error e => rfl

/-- The invariant the provider fold maintains: every stored entry's `network`
value parses, and stored entries are pairwise non-overlapping. -/
def tableInv (t : RT) : Prop :=
  (∀ e ∈ t, (e.2).network.isParsed = true) ∧
  t.Pairwise (fun a b => noOverlapD a.2 b.2)

theorem tableInv_nil : tableInv [] := ⟨by simp, List.Pairwise.nil⟩

theorem provEntry_inv {acc acc2 : RT} {e : String × NetworkD}
    (hInv : tableInv acc) (h : provEntry acc e = Except.ok acc2) :
    tableInv acc2 := by
  rw [provEntry] at h
  by_cases h1 : (e.1 = "" || !e.2.truthy) = true
  · rw [if_pos h1] at h
    injection h with h
    subst h
    exact hInv
  · rw [if_neg h1] at h
    by_cases h2 : e.1 ∈ keysOf acc
    · rw [if_pos h2] at h; cases h
    · rw [if_neg h2] at h
      cases hv : validateNetwork e.2 acc with
      | error err => simp [hv] at h
      | ok u =>
        simp only [hv] at h
        injection h with h
        subst h
        rcases validateNetwork_ok hv with ⟨p, hp, hex⟩
        have hok := checkExclusivity_ok hex
        constructor
        · intro x hx
          rcases List.mem_append.mp hx with hx | hx
          · exact hInv.1 x hx
          · rw [List.mem_singleton.mp hx]
            simp [hp, Fv.isParsed]
        · rw [List.pairwise_append]
          refine ⟨hInv.2, List.pairwise_singleton _ _, ?_⟩
          intro a ha b hb
          rw [List.mem_singleton.mp hb]
          intro p' q' hp' hq'
          rcases hok a ha with ⟨q, hq, hs1, hs2⟩
          rw [hq] at hp'
          injection hp' with hp'
          subst hp'
          rw [hp] at hq'
          injection hq' with hq'
          subst hq'
          rintro (rfl | hsub | hsub)
          · rw [subnetOf_refl] at hs1; cases hs1
          · rw [hsub] at hs1; cases hs1
          · rw [hsub] at hs2; cases hs2

theorem provEntries_inv {es : List (String × NetworkD)} : ∀ {acc acc2 : RT},
    tableInv acc → provEntries acc es = Except.ok acc2 → tableInv acc2 := by
  induction es with
  | nil =>
    intro acc acc2 hInv h
    rw [provEntries] at h
    injection h with h
    subst h
    exact hInv
  | cons e es ih =>
    intro acc acc2 hInv h
    rw [provEntries] at h
    cases hpe : provEntry acc e with
    | error err => simp [hpe] at h
    | ok a =>
      simp only [hpe] at h
      exact ih (provEntry_inv hInv hpe) h

theorem provRel_inv {acc acc2 : RT} {r : RelationState}
    (hInv : tableInv acc) (h : provRel acc r = Except.ok acc2) : tableInv acc2 := by
  rw [provRel] at h
  cases hr : r.networks with
  | absent => rw [hr] at h; injection h with h; subst h; exact hInv
  | emptyStr => rw [hr] at h; injection h with h; subst h; exact hInv
  | badJson => rw [hr] at h; injection h with h; subst h; exact hInv
  | payload entries =>
    simp only [hr] at h
    exact provEntries_inv hInv h

theorem provRels_inv {rels : List RelationState} : ∀ {acc acc2 : RT},
    tableInv acc → provRels acc rels = Except.ok acc2 → tableInv acc2 := by
  induction rels with
  | nil =>
    intro acc acc2 hInv h
    rw [provRels] at h
    injection h with h
    subst h
    exact hInv
  | cons r rs ih =>
    intro acc acc2 hInv h
    rw [provRels] at h
    cases hpr : provRel acc r with
    | error err => simp [hpr] at h
    | ok a =>
      simp only [hpr] at h
      exact ih (provRel_inv hInv hpr) h

/-- Claim C1 (code bug): the validator is claimed to fail with the
gateway-containment error whenever the candidate's gateway lies outside its
own prefix.  The source (line 230-231) constructs the ValueError but never
raises it: the candidate whose gateway 10.0.0.1 is outside 192.168.250.0/24
is accepted by `_validate_network` against the empty table. -/
theorem gateway_containment_not_enforced :
    gwOutside.network = Fv.parsed ⟨ipv4 192 168 250 0, 24⟩ ∧
    gwOutside.gateway = Fv.parsed (ipv4 10 0 0 1) ∧
    Pfx.containsAddr ⟨ipv4 192 168 250 0, 24⟩ (ipv4 10 0 0 1) = false ∧
    validateNetwork gwOutside [] = Except.ok () := by decide

/-- Claim C2 (counterexample): one peer proposes net-a and then net-b with the
identical prefix; the claim says net-b is skipped, net-a is returned and no
exception reaches the caller, but `get_routing_table` raises RuntimeError
(here the validation-failure variant), failing the whole call. -/
theorem reconcile_raises_on_invalid_entry_cex :
    getRoutingTableProvides [⟨"requirer-a", DB.payload [("net-a", netA), ("net-b", netA)]⟩]
      = Except.error (ProvErr.validationError VErr.networkConflict) := by decide

/-- Claim C2 (amended): the provider-side reconciliation skips a peer whose
databag is absent, empty or undecodable, every other peer contributing as if
it were not there; but an entry whose name already exists in the accumulator,
or an entry failing validation, makes the whole call raise RuntimeError
(duplicate-name resp. validation error) instead of being skipped. -/
theorem reconcile_error_propagation_and_peer_skip
    (pre post : List RelationState) (app : String)
    (ents1 ents2 : List (String × NetworkD)) (name : String) (net : NetworkD)
    (acc acc2 : RT)
    (h1 : provRels [] pre = Except.ok acc)
    (h2 : provEntries acc ents1 = Except.ok acc2)
    (hname : name ≠ "") (htr : net.truthy = true) :
    (name ∈ keysOf acc2 →
      getRoutingTableProvides (pre ++ ⟨app, DB.payload (ents1 ++ (name, net) :: ents2)⟩ :: post)
        = Except.error (ProvErr.duplicateName name)) ∧
    (∀ e, name ∉ keysOf acc2 → validateNetwork net acc2 = Except.error e →
      getRoutingTableProvides (pre ++ ⟨app, DB.payload (ents1 ++ (name, net) :: ents2)⟩ :: post)
        = Except.error (ProvErr.validationError e)) ∧
    (∀ r : RelationState,
      r.networks = DB.absent ∨ r.networks = DB.emptyStr ∨ r.networks = DB.badJson →
      getRoutingTableProvides (pre ++ r :: post) = getRoutingTableProvides (pre ++ post)) := by
  have key : ∀ res : ProvErr, provEntry acc2 (name, net) = Except.error res →
      getRoutingTableProvides
          (pre ++ ⟨app, DB.payload (ents1 ++ (name, net) :: ents2)⟩ :: post)
        = Except.error res := by
    intro res hres
    rw [getRoutingTableProvides, provRels_append]
    simp only [h1]
    have hrel : provRel acc ⟨app, DB.payload (ents1 ++ (name, net) :: ents2)⟩
        = Except.error res := by
      show provEntries acc (ents1 ++ (name, net) :: ents2) = Except.error res
      rw [provEntries_append]
      simp only [h2]
      rw [provEntries]
      simp only [hres]
    rw [provRels]
    simp only [hrel]
  refine ⟨?_, ?_, ?_⟩
  · intro hmem
    apply key
    simp only [provEntry]
    simp [hname, htr, hmem]
  · intro e hmem hval
    apply key
    simp only [provEntry]
    simp [hname, htr, hmem, hval]
  · intro r hr
    simp only [getRoutingTableProvides]
    rw [provRels_append, provRels_append]
    cases hpre : provRels [] pre with
    | error err => rfl
    | ok a =>
      simp only []
      rw [provRels]
      have hskip : provRel a r = Except.ok a := by
        rcases hr with h | h | h <;> simp only [provRel, h]
      simp only [hskip]

/-- Witness for the amended C2: two peers propose the same name net-a; the
whole reconciliation raises the duplicate-name RuntimeError. -/
theorem reconcile_error_propagation_witness :
    getRoutingTableProvides
        [⟨"requirer-a", DB.payload [("net-a", netA)]⟩,
         ⟨"requirer-b", DB.payload [("net-a", netC)]⟩]
      = Except.error (ProvErr.duplicateName "net-a") := by
  have h := (reconcile_error_propagation_and_peer_skip
    [⟨"requirer-a", DB.payload [("net-a", netA)]⟩] [] "requirer-b"
    [] [] "net-a" netC [("net-a", netA)] [("net-a", netA)]
    (by decide) (by decide) (by decide) (by decide)).1 (by decide)
  simpa using h

/-- Claim C3: on a leader unit with at least one relation, a proposal batch
whose sequential validation fails makes `request_network` surface that exact
validation error and leave every relation databag at its prior value: nothing
from the batch is published. -/
theorem request_network_all_or_nothing
    (rels : List ReqRelation) (req : RT) (e : VErr)
    (hne : rels ≠ [])
    (hfail : validateBatch (popKeys (reqRels [] rels) (keysOf req)) req = Except.error e) :
    requestNetwork true rels req = (Except.error e, rels) := by
  have hni : rels.isEmpty = false := by
    cases rels with
    | nil => cases hne rfl
    | cons a as => rfl
  simp [requestNetwork, hni, hfail]

/-- Witness for C3: a batch whose single entry lacks its gateway key is
rejected with the KeyError-class missing-gateway error and the relation state
is unchanged. -/
theorem request_network_all_or_nothing_witness :
    requestNetwork true [⟨"router", DB.absent, none⟩] [("bad-net", noGw)]
      = (Except.error VErr.missingGateway, [⟨"router", DB.absent, none⟩]) :=
  request_network_all_or_nothing [⟨"router", DB.absent, none⟩] [("bad-net", noGw)]
    VErr.missingGateway (by decide) (by decide)

/-- Claim C4: whenever the provider's `get_routing_table` returns normally,
every returned entry's network parses and, for every pair of distinct
entries, neither prefix equals, is a subnet of, or is a supernet of the
other. -/
theorem routing_table_mutual_exclusivity (rels : List RelationState) (t : RT)
    (h : getRoutingTableProvides rels = Except.ok t) :
    (∀ e ∈ t, (e.2).network.isParsed = true) ∧
    t.Pairwise (fun a b => noOverlapD a.2 b.2) :=
  provRels_inv tableInv_nil h

/-- Witness for C4: two peers with disjoint prefixes produce a table whose
entries are pairwise non-overlapping. -/
theorem routing_table_mutual_exclusivity_witness :
    (∀ e ∈ ([("net-a", netA), ("net-c", netC)] : RT), (e.2).network.isParsed = true) ∧
    List.Pairwise (fun a b => noOverlapD a.2 b.2) ([("net-a", netA), ("net-c", netC)] : RT) :=
  routing_table_mutual_exclusivity
    [⟨"requirer-a", DB.payload [("net-a", netA)]⟩, ⟨"requirer-b", DB.payload [("net-c", netC)]⟩]
    [("net-a", netA), ("net-c", netC)] (by decide)

/-- Claim C5: a well-formed candidate (parsed gateway and network, routes
passing their checks) whose prefix equals, is a subnet of, or is a supernet
of the prefix of an entry of the existing table is rejected by
`_validate_network` with the ValueError-class network-conflict error; and in
scenario 4, with net-a = 192.168.250.0/24 already observed, proposing
net-b = 192.168.240.0/20 makes `request_network` fail with that error while
the table still contains only net-a. -/
theorem validate_network_conflict
    (req : NetworkD) (g : IPv4) (p : Pfx) (existing : RT)
    (hg : req.gateway = Fv.parsed g) (hp : req.network = Fv.parsed p)
    (hroutes : validateRoutes p (req.routes.getD []) = Except.ok ())
    (hall : ∀ e ∈ existing, (e.2).network.isParsed = true)
    (hconf : ∃ e ∈ existing, ∃ q, (e.2).network = Fv.parsed q ∧
      (p = q ∨ subnetOf p q = true ∨ subnetOf q p = true)) :
    validateNetwork req existing = Except.error VErr.networkConflict ∧
    requestNetwork true scenario4Rels [("net-b", netB20)]
      = (Except.error VErr.networkConflict, scenario4Rels) ∧
    reqRels [] scenario4Rels = [("net-a", netA)] := by
  refine ⟨?_, by decide, by decide⟩
  simp only [validateNetwork, hg, hp, hroutes]
  exact checkExclusivity_conflict hall hconf

/-- Witness for C5: the supernet 192.168.240.0/20 conflicts with the stored
192.168.250.0/24. -/
theorem validate_network_conflict_witness :
    validateNetwork netB20 [("net-a", netA)] = Except.error VErr.networkConflict :=
  (validate_network_conflict netB20 (ipv4 192 168 250 1) ⟨ipv4 192 168 240 0, 20⟩
    [("net-a", netA)] rfl rfl (by decide) (by decide)
    ⟨("net-a", netA), List.mem_singleton.mpr rfl, ⟨ipv4 192 168 250 0, 24⟩, rfl,
      Or.inr (Or.inr (by decide))⟩).1

/-- Claim C6 (counterexample): the peer's own prior contribution net-a (also
recorded in its local databag) is re-proposed unchanged under the new name
net-b; `request_network` spuriously raises the network-conflict error against
the peer's own prior entry, because removal is by requested name, not by
ownership. -/
theorem self_resubmission_rename_conflicts_cex :
    rels6.map ReqRelation.localNetworks = [some [("net-a", netA)]] ∧
    requestNetwork true rels6 [("net-b", netA)]
      = (Except.error VErr.networkConflict, rels6) := by decide

/-- Claim C6 (amended): `request_network` validates each candidate against
the observed table with every entry bearing a requested name removed, so
whenever all observed names are among the requested names (a peer
resubmitting or amending its networks under their existing names), validation
runs against a table containing none of them and succeeds exactly when the
batch is self-consistent; re-proposing an owned prefix under a fresh name, by
contrast, conflicts (see the counterexample). -/
theorem self_resubmission_same_names_safe
    (rels : List ReqRelation) (req : RT) (acc : RT)
    (hne : rels ≠ [])
    (hnames : ∀ e ∈ reqRels [] rels, e.1 ∈ keysOf req)
    (hbatch : validateBatch [] req = Except.ok acc) :
    requestNetwork true rels req = (Except.ok (), publish rels req) := by
  have hni : rels.isEmpty = false := by
    cases rels with
    | nil => cases hne rfl
    | cons a as => rfl
  have hpop : popKeys (reqRels [] rels) (keysOf req) = [] := popKeys_eq_nil hnames
  simp [requestNetwork, hni, hpop, hbatch]

/-- Witness for the amended C6: amending one's own net-a (to a different
prefix) under the same name succeeds and republishes. -/
theorem self_resubmission_same_names_safe_witness :
    requestNetwork true rels6 [("net-a", netC)]
      = (Except.ok (), publish rels6 [("net-a", netC)]) :=
  self_resubmission_same_names_safe rels6 [("net-a", netC)] [("net-a", netC)]
    (by decide) (by decide) (by decide)

/-- Claim C7 (counterexample): relation router-a publishes a perfectly valid
net-a, relation router-b an undecodable payload; the requirer read returns
the empty table, dropping router-a's valid entry, instead of degrading
entry-by-entry. -/
theorem requirer_read_bad_json_drops_all_cex :
    validateNetwork netA [] = Except.ok () ∧
    getRoutingTableRequires true rels7 = some ([] : RT) := by decide

/-- Claim C7 (amended): within a decodable payload the requirer read path
does skip entry-by-entry — an entry failing validation contributes nothing
while the fold continues — but an undecodable payload on any relation makes
the whole read return the empty table. -/
theorem requirer_read_fault_isolation :
    (∀ (acc : RT) (name : String) (net : NetworkD) (es : List (String × NetworkD)) (e : VErr),
      validateNetwork net acc = Except.error e →
      reqEntries acc ((name, net) :: es) = reqEntries acc es) ∧
    (∀ rels : List ReqRelation, (∃ r ∈ rels, r.remote = DB.badJson) →
      getRoutingTableRequires true rels = some ([] : RT)) := by
  constructor
  · intro acc name net es e h
    rw [reqEntries]
    simp only [h]
  · intro rels h
    show some (reqRels [] rels) = some ([] : RT)
    rw [reqRels_badJson h]

/-- Witness for the amended C7: a single undecodable relation yields the
empty table. -/
theorem requirer_read_fault_isolation_witness :
    getRoutingTableRequires true [⟨"router-x", DB.badJson, none⟩] = some ([] : RT) :=
  requirer_read_fault_isolation.2 [⟨"router-x", DB.badJson, none⟩]
    ⟨⟨"router-x", DB.badJson, none⟩, List.mem_singleton.mpr rfl, rfl⟩

/-- Claim C8: the provider reconciliation is a deterministic function of the
relation databags: any two relation lists carrying the same databag contents
(in particular, the same list read twice with no databag change) reconcile to
identical results. -/
theorem reconcile_deterministic (r1 r2 : List RelationState)
    (h : r1.map RelationState.networks = r2.map RelationState.networks) :
    getRoutingTableProvides r1 = getRoutingTableProvides r2 :=
  provRels_networks_eq r1 r2 [] h

/-- Witness for C8: the same databag behind two different application names
reconciles identically. -/
theorem reconcile_deterministic_witness :
    getRoutingTableProvides [⟨"alpha", DB.payload [("net-a", netA)]⟩]
      = getRoutingTableProvides [⟨"beta", DB.payload [("net-a", netA)]⟩] :=
  reconcile_deterministic
    [⟨"alpha", DB.payload [("net-a", netA)]⟩]
    [⟨"beta", DB.payload [("net-a", netA)]⟩] rfl

/-- Claim C9: on a non-leader unit the requirer's `get_routing_table` returns
None (not an empty or cached table), and consequently `get_network` raises
TypeError (subscripting None) for every name. -/
theorem non_leader_get_routing_table_none (rels : List ReqRelation) (name : String) :
    getRoutingTableRequires false rels = none ∧
    getNetwork false rels name = Except.error LookupErr.typeErrorNone :=
  ⟨rfl, rfl⟩

/-- Claim C10: on a leader unit with zero ip-router relations,
`request_network` returns silently for every argument, valid or not: no
validation error is raised, nothing is published, and the outcome is
indistinguishable from a successful proposal. -/
theorem request_network_no_relations_noop (req : RT) :
    requestNetwork true [] req = (Except.ok (), []) := rfl

end IpRouter
